import Mathlib

unseal Rat.mul Rat.add Rat.sub Rat.inv

deriving instance DecidableEq for Except

set_option maxRecDepth 40000

/-!
Verification of the asset-security risk-scoring pipeline.

The development shallowly embeds the pure computational core of the
repository (`classification.py`, `compute_risk_level.py`, `risk_analysis.py`,
`model_comparison.py`) into Lean:

* machine floats are idealised as exact rationals (`ℚ`) for the fuzzy
  pipelines and as reals (`ℝ`) where a non-integer power appears;
* Python exceptions are modelled as `Except`;
* `round(x, 3)` is modelled as `round (x * 1000) / 1000`.

The fuzzy stages follow the scikit-fuzzy semantics used by the code:
triangular membership, rule activation by minimum, disjunction by maximum,
clipping of the consequent terms, aggregation by maximum over the sampled
universe (`0, 0.01, …, 1`), and centroid defuzzification computed by the
trapezoid rule over consecutive sample points.  All breakpoints of the
membership functions lie on the sampled grid, so the sampled surface is
exactly piecewise linear and the trapezoid centroid is exact.
-/

/-- Triangular membership function with breakpoints `a ≤ b ≤ c`, evaluated as
scikit-fuzzy does: `1` at the apex `b`, linear on `(a, b)` and `(b, c)`,
`0` elsewhere. -/
def trimf (a b c x : ℚ) : ℚ :=
  if x = b then 1
  else if a < x ∧ x < b then (x - a) / (b - a)
  else if b < x ∧ x < c then (c - x) / (c - b)
  else 0

/-- Clamp a value into `[0, 1]`, as `min(max(v, 0), 1.0)` in the source. -/
def clamp01 (x : ℚ) : ℚ := min (max x 0) 1

/-- Python's `round(x, 3)` on the idealised rational value. -/
def round3q (x : ℚ) : ℚ := ((round (x * 1000) : ℤ) : ℚ) / 1000

/-- The sampled universe `np.arange(0, 1.01, 0.01)`: `0, 0.01, …, 1`. -/
def univ101 : List ℚ := (List.range 101).map (fun n => (n : ℚ) / 100)

/-- One trapezoid strip of scikit-fuzzy's centroid defuzzifier: given
consecutive sample points `(x1, y1)`, `(x2, y2)` return
`(area, moment * area)` following the branch structure of
`skfuzzy.defuzzify.centroid`. -/
def centroidStep (x1 x2 y1 y2 : ℚ) : ℚ × ℚ :=
  if (y1 = 0 ∧ y2 = 0) ∨ x1 = x2 then (0, 0)
  else if y1 = y2 then
    ((x2 - x1) * y1, ((x1 + x2) / 2) * ((x2 - x1) * y1))
  else if y1 = 0 then
    ((x2 - x1) * y2 / 2, ((2 / 3) * (x2 - x1) + x1) * ((x2 - x1) * y2 / 2))
  else if y2 = 0 then
    ((x2 - x1) * y1 / 2, ((1 / 3) * (x2 - x1) + x1) * ((x2 - x1) * y1 / 2))
  else
    ((x2 - x1) * (y1 + y2) / 2,
      (((2 / 3) * (x2 - x1) * (y2 + y1 / 2)) / (y1 + y2) + x1) *
        ((x2 - x1) * (y1 + y2) / 2))

/-- Sum of `(area, moment * area)` over consecutive pairs of sample points. -/
def centroidSums : List (ℚ × ℚ) → ℚ × ℚ
  | [] => (0, 0)
  | [_] => (0, 0)
  | p :: q :: rest =>
    let s := centroidSums (q :: rest)
    let t := centroidStep p.1 q.1 p.2 q.2
    (s.1 + t.1, s.2 + t.2)

/-- Centroid defuzzification: total moment divided by total area. -/
def defuzzCentroid (pts : List (ℚ × ℚ)) : ℚ :=
  (centroidSums pts).2 / (centroidSums pts).1

/-! ### Risk Identifier (`compute_risk_level.py`)

Membership functions for all four antecedents and for the `risk_index`
consequent: `low = trimf [0, 0, 0.3]`, `medium = trimf [0.2, 0.5, 0.8]`,
`high = trimf [0.7, 1, 1]`. -/

def riskMfLow (x : ℚ) : ℚ := trimf 0 0 (3 / 10) x

def riskMfMed (x : ℚ) : ℚ := trimf (2 / 10) (5 / 10) (8 / 10) x

def riskMfHigh (x : ℚ) : ℚ := trimf (7 / 10) 1 1 x

/-- Activations of the 18 rules of `compute_risk_level`, grouped by
consequent as `(low, medium, high)`.  Conjunction is minimum, and the
per-consequent aggregation across rules is maximum. -/
def riskActs (c i a cv : ℚ) : ℚ × ℚ × ℚ :=
  let cL := riskMfLow c; let cM := riskMfMed c; let cH := riskMfHigh c
  let iL := riskMfLow i; let iM := riskMfMed i; let iH := riskMfHigh i
  let aL := riskMfLow a; let aM := riskMfMed a; let aH := riskMfHigh a
  let kL := riskMfLow cv; let kM := riskMfMed cv; let kH := riskMfHigh cv
  let high := max (max (min (min cH iH) aH) (min (min cH iH) kH))
    (max (min (min iH aH) kH) (min (min cH aH) kH))
  let med := max
    (max (max (min (min cH iM) aM) (min (min cM iH) aM))
      (max (min (min cM iM) aH) (min kH cM)))
    (max (max (max (min kH iM) (min kH aM)) (max (min (min cM iM) aM) (min (min kM cM) iM)))
      (max (min (min kM cM) aM) (min (min kM iM) aM)))
  let low := max (max (min (min cL iL) aL) (min kL cL)) (max (min kL iL) (min kL aL))
  (low, med, high)

/-- Aggregated output membership surface of the risk-index consequent,
sampled over the universe: each term is clipped at its activation and the
three clipped terms are combined pointwise by maximum. -/
def riskAggregate (actL actM actH : ℚ) : List (ℚ × ℚ) :=
  univ101.map (fun u =>
    (u, max (min actL (riskMfLow u)) (max (min actM (riskMfMed u)) (min actH (riskMfHigh u)))))

/-- The `except` fallback of `compute_risk_level`: the equal-weighted
(0.25 each) average of the four inputs, each clamped to `[0, 1]`, rounded
to three decimals. -/
def riskFallback (c i a cv : ℚ) : ℚ :=
  round3q ((1 / 4) * clamp01 c + (1 / 4) * clamp01 i + (1 / 4) * clamp01 a +
    (1 / 4) * clamp01 cv)

/-- `compute_risk_level(confidentiality, integrity, availability,
classification_value)`.  The inputs are clamped into `[0, 1]` before being
fed to the fuzzy system.  When no rule fires (all activations zero) the
scikit-fuzzy simulation raises (zero total area in defuzzification) and the
function returns the weighted-average fallback instead; otherwise it returns
the centroid of the aggregated surface, rounded to three decimals. -/
def compute_risk_level (c i a cv : ℚ) : ℚ :=
  if riskActs (clamp01 c) (clamp01 i) (clamp01 a) (clamp01 cv) = (0, 0, 0) then
    riskFallback c i a cv
  else
    round3q (defuzzCentroid (riskAggregate
      (riskActs (clamp01 c) (clamp01 i) (clamp01 a) (clamp01 cv)).1
      (riskActs (clamp01 c) (clamp01 i) (clamp01 a) (clamp01 cv)).2.1
      (riskActs (clamp01 c) (clamp01 i) (clamp01 a) (clamp01 cv)).2.2))

/-! ### Asset Classifier (`classification.py`, `classify_asset_fuzzy`)

Antecedent membership functions: `low = trimf [0, 0, 0.4]`,
`medium = trimf [0.2, 0.5, 0.8]`, `high = trimf [0.6, 1, 1]`.
Consequent (`risk_classification`) membership functions:
`low = trimf [0, 0.16, 0.33]`, `moderate = trimf [0.25, 0.5, 0.75]`,
`high = trimf [0.66, 0.83, 1]`. -/

def clsMfLow (x : ℚ) : ℚ := trimf 0 0 (4 / 10) x

def clsMfMed (x : ℚ) : ℚ := trimf (2 / 10) (5 / 10) (8 / 10) x

def clsMfHigh (x : ℚ) : ℚ := trimf (6 / 10) 1 1 x

def clsOutLow (u : ℚ) : ℚ := trimf 0 (16 / 100) (33 / 100) u

def clsOutMod (u : ℚ) : ℚ := trimf (25 / 100) (5 / 10) (75 / 100) u

def clsOutHigh (u : ℚ) : ℚ := trimf (66 / 100) (83 / 100) 1 u

/-- Activations of the 17 rules of `classify_asset_fuzzy`, grouped by
consequent as `(low, moderate, high)`.  Conjunction is minimum,
disjunction (the `|` in the rule table) is maximum, and the
per-consequent aggregation across rules is maximum. -/
def clsActs (bc ds od ri c i a : ℚ) : ℚ × ℚ × ℚ :=
  let bcL := clsMfLow bc; let bcM := clsMfMed bc; let bcH := clsMfHigh bc
  let dsL := clsMfLow ds; let dsM := clsMfMed ds; let dsH := clsMfHigh ds
  let odL := clsMfLow od; let odM := clsMfMed od; let odH := clsMfHigh od
  let riL := clsMfLow ri; let riM := clsMfMed ri; let riH := clsMfHigh ri
  let cL := clsMfLow c; let cM := clsMfMed c; let cH := clsMfHigh c
  let iL := clsMfLow i; let iM := clsMfMed i; let iH := clsMfHigh i
  let aL := clsMfLow a; let aM := clsMfMed a; let aH := clsMfHigh a
  let high := max
    (max (min (min (min bcH cH) iH) aH) (max (min (min bcH dsH) odH) (min (min riH dsH) cH)))
    (max (min (min bcH odH) (max cH iH))
      (max (min (min dsH riH) (max cM iM)) (min (min odH aH) bcM)))
  let moderate := max
    (max (min (min bcM dsM) odM)
      (max (min bcH (max (max cL iL) aL)) (min (min dsH riL) bcL)))
    (max (max (min odM (max (max cM iM) aM)) (min riM dsM))
      (max (min (min (min cH iL) aL) bcL) (min (min riH bcL) dsL)))
  let low := max (max (min (min bcL dsL) odL)
      (max (min (min bcL riL) (max cL iL)) (min (min dsL odL) aL)))
    (min (min (min bcM dsL) odL) riL)
  (low, moderate, high)

/-- Aggregated output membership surface of the classifier consequent. -/
def clsAggregate (actL actM actH : ℚ) : List (ℚ × ℚ) :=
  univ101.map (fun u =>
    (u, max (min actL (clsOutLow u)) (max (min actM (clsOutMod u)) (min actH (clsOutHigh u)))))

/-- Crisp fuzzy output of the classifier at a 7-parameter input
(meaningful when at least one rule fires). -/
def clsFuzzyScore (bc ds od ri c i a : ℚ) : ℚ :=
  let acts := clsActs bc ds od ri c i a
  defuzzCentroid (clsAggregate acts.1 acts.2.1 acts.2.2)

/-- The weighted combination of lines 110-121 of `classification.py`:
`business_weight = (bc*0.4 + od*0.3 + ri*0.3) * 0.6`,
`technical_weight = (c*0.33 + i*0.33 + a*0.34) * 0.25`,
`data_weight = ds * 0.15`, and
`final_score = min(max(fuzzy*0.7 + business + technical + data, 0), 1)`. -/
def clsFinalScore (fz bc ds od ri c i a : ℚ) : ℚ :=
  let business_weight := (bc * (4 / 10) + od * (3 / 10) + ri * (3 / 10)) * (6 / 10)
  let technical_weight := (c * (33 / 100) + i * (33 / 100) + a * (34 / 100)) * (25 / 100)
  let data_weight := ds * (15 / 100)
  min (max (fz * (7 / 10) + business_weight + technical_weight + data_weight) 0) 1

/-- The government classification category determined by the fixed
thresholds of lines 124-139. -/
def clsCategory (s : ℚ) : String :=
  if s ≤ 25 / 100 then "Public"
  else if s ≤ 50 / 100 then "Official"
  else if s ≤ 75 / 100 then "Confidential"
  else "Restricted"

/-- The qualitative risk level reported alongside the category. -/
def clsRiskLevel (s : ℚ) : String :=
  if s ≤ 25 / 100 then "Low"
  else if s ≤ 50 / 100 then "Low-Medium"
  else if s ≤ 75 / 100 then "Medium-High"
  else "High"

/-- The crisp fuzzy output combined with the weighted factors: the value
`final_score` of line 121, which also drives the category banding. -/
def clsScore (bc ds od ri c i a : ℚ) : ℚ :=
  clsFinalScore (clsFuzzyScore bc ds od ri c i a) bc ds od ri c i a

/-- The part of the classifier result dictionary that the claims are
about.  `classification_score` is the final score rounded to three
decimals; the component scores are rounded as in the source. -/
structure ClassificationResult where
  classification_score : ℚ
  classification_category : String
  risk_level : String
  fuzzy_logic_output : ℚ
  business_factors_score : ℚ
  cia_triad_score : ℚ
  data_sensitivity_score : ℚ
  deriving Repr, DecidableEq

/-- Failure modes of `classify_asset_fuzzy`: the validation `ValueError`
raised for the first input (in declaration order) outside `[0, 1]`, naming
that input and carrying its value; or the re-raised scikit-fuzzy error when
no rule fires and the crisp output cannot be calculated.  Both are raised
to the caller (lines 181-183 re-raise; there is no fallback). -/
inductive ClassifyError where
  | invalidInput (name : String) (value : ℚ)
  | noRuleFired
  deriving Repr, DecidableEq

/-- `classify_asset_fuzzy(business_criticality, data_sensitivity,
operational_dependency, regulatory_impact, confidentiality, integrity,
availability)`: validates all seven inputs in order (hard failure, no
clamping), runs the 17-rule fuzzy system, raises when no rule fires, and
otherwise combines the crisp fuzzy output with the weighted factors. -/
def classify_asset_fuzzy (bc ds od ri c i a : ℚ) : Except ClassifyError ClassificationResult :=
  if ¬(0 ≤ bc ∧ bc ≤ 1) then .error (.invalidInput "business_criticality" bc)
  else if ¬(0 ≤ ds ∧ ds ≤ 1) then .error (.invalidInput "data_sensitivity" ds)
  else if ¬(0 ≤ od ∧ od ≤ 1) then .error (.invalidInput "operational_dependency" od)
  else if ¬(0 ≤ ri ∧ ri ≤ 1) then .error (.invalidInput "regulatory_impact" ri)
  else if ¬(0 ≤ c ∧ c ≤ 1) then .error (.invalidInput "confidentiality" c)
  else if ¬(0 ≤ i ∧ i ≤ 1) then .error (.invalidInput "integrity" i)
  else if ¬(0 ≤ a ∧ a ≤ 1) then .error (.invalidInput "availability" a)
  else if clsActs bc ds od ri c i a = (0, 0, 0) then .error .noRuleFired
  else
    .ok {
      classification_score := round3q (clsScore bc ds od ri c i a)
      classification_category := clsCategory (clsScore bc ds od ri c i a)
      risk_level := clsRiskLevel (clsScore bc ds od ri c i a)
      fuzzy_logic_output := round3q (clsFuzzyScore bc ds od ri c i a)
      business_factors_score := round3q ((bc + od + ri) / 3)
      cia_triad_score := round3q ((c + i + a) / 3)
      data_sensitivity_score := round3q ds }

/-! ### Model comparison (`model_comparison.py`)

`compare_all_approaches` resolves the three predictions (fuzzy, SVM,
decision tree) by `Counter(predictions).most_common(1)[0][0]`: the label
with the greatest count, ties broken by first-insertion order.
`batch_comparison` runs the single-asset comparison over a list of tuples
inside one `try`, so an exception from any item aborts the loop and the
handler returns an error record with an empty result list. -/

/-- The keys of a Python `Counter` built from `l`, in first-occurrence
order (Python dicts preserve insertion order). -/
def firstOccurrenceKeys {α : Type} [DecidableEq α] (l : List α) : List α :=
  l.foldl (fun acc x => if acc.contains x then acc else acc ++ [x]) []

/-- `Counter(l).most_common(1)[0][0]`: the element with maximal
multiplicity; on ties, `most_common` sorts stably by descending count, so
the earliest-inserted key wins. -/
def pickMostCommon {α : Type} [DecidableEq α] (l : List α) : Option α :=
  match firstOccurrenceKeys l with
  | [] => none
  | k :: ks => some (ks.foldl (fun best k2 => if l.count best < l.count k2 then k2 else best) k)

/-- The consensus resolution of `compare_all_approaches` applied to the
three individual predictions, in the order they are produced
(`[traditional_fuzzy_prediction, modern_svm_prediction, modern_dt_prediction]`). -/
def consensusPrediction (fuzzy svm dt : String) : String :=
  (pickMostCommon [fuzzy, svm, dt]).getD fuzzy

/-- The `performance_metrics` dictionary of `batch_comparison`. -/
structure PerformanceMetrics where
  total_assets : ℕ
  successful_comparisons : ℕ
  success_rate : ℚ
  deriving Repr, DecidableEq

/-- The `batch_summary` dictionary of `batch_comparison`. -/
structure BatchSummary where
  total_processed : ℕ
  successful : ℕ
  failed : ℕ
  deriving Repr, DecidableEq

/-- The result dictionary of `batch_comparison`.  The error path returns
`individual_results = []` and an empty `performance_metrics` dictionary
(modelled as `none`), and no `batch_summary`. -/
structure BatchComparisonResult (R : Type) where
  error : Option String
  individual_results : List R
  performance_metrics : Option PerformanceMetrics
  batch_summary : Option BatchSummary

/-- The `for` loop of `batch_comparison`, parametrised by the single-asset
comparison `compare` (the method `compare_all_approaches`, which raises on
any sub-classifier failure).  Each tuple must have at least 7 entries, and
its first 7 are passed to `compare`; the loop runs inside the enclosing
`try`, so the first exception aborts it, discarding the accumulated
results.  On success it returns the collected results together with the
`successful_comparisons` count. -/
def runComparisons {R : Type} (compare : List ℚ → Except String R) :
    List (List ℚ) → Except String (List R × ℕ)
  | [] => .ok ([], 0)
  | t :: rest =>
    if 7 ≤ t.length then
      match compare (t.take 7) with
      | .ok r =>
        match runComparisons compare rest with
        | .ok (rs, n) => .ok (r :: rs, n + 1)
        | .error e => .error e
      | .error e => .error e
    else .error "Invalid test data format - requires 7 parameters"

/-- `batch_comparison(test_data_list)`: on a clean run it reports all
individual results plus performance metrics; if any single comparison
raises, the `except` branch returns an error record whose
`individual_results` list is empty. -/
def batch_comparison {R : Type} (compare : List ℚ → Except String R)
    (xs : List (List ℚ)) : BatchComparisonResult R :=
  match runComparisons compare xs with
  | .ok (rs, n) =>
    { error := none
      individual_results := rs
      performance_metrics := some
        { total_assets := xs.length
          successful_comparisons := n
          success_rate := if xs.length = 0 then 0 else (n : ℚ) / (xs.length : ℚ) }
      batch_summary := some
        { total_processed := xs.length, successful := n, failed := xs.length - n } }
  | .error e =>
    { error := some ("Batch comparison failed: " ++ e)
      individual_results := []
      performance_metrics := none
      batch_summary := none }

/-- The first sub-classifier of `compare_all_approaches`: the enhanced
fuzzy classification, whose failure is re-raised and makes the whole
single-asset comparison raise (line 313).  Used to instantiate
`batch_comparison` on a concrete failing batch. -/
def fuzzySubCompare (t : List ℚ) : Except String ClassificationResult :=
  match t with
  | bc :: ds :: od :: ri :: c :: i :: a :: _ =>
    match classify_asset_fuzzy bc ds od ri c i a with
    | .ok r => .ok r
    | .error _ => .error "Enhanced fuzzy logic classification failed"
  | _ => .error "Invalid test data format - requires 7 parameters"

/-! ### Mathematical Risk Analyzer (`risk_analysis.py`)

The closed-form stage uses `math.pow(risk_index, 1.3)`, so this part of the
embedding lives in `ℝ` with the real power function. -/

/-- Python's `round(x, 3)` on the idealised real value. -/
noncomputable def round3r (x : ℝ) : ℝ := ((round (x * 1000) : ℤ) : ℝ) / 1000

/-- The fields of the result dictionary of `calculate_risk_level` that the
claims are about (the numeric fields are rounded to three decimals, as in
the source). -/
structure RiskAnalysisResult where
  calculated_risk_level : ℝ
  harm_value : ℝ
  risk_category : String
  probability : ℝ
  impact : ℝ
  environmental_factor : ℝ
  risk_level : String
  risk_score : ℝ
  risk_index : ℝ

/-- The `try` block of `calculate_risk_level` on a float input: clamp the
risk index into `[0, 1]`, take `likelihood = risk_index`,
`impact = 0` when the index is zero and `min(risk_index^1.3 * 1.05, 1)`
otherwise, `environmental_factor = 1 + 0.15 * risk_index`,
`calculated_risk_level = min(likelihood * impact * environmental_factor, 1)`,
then band the score into Low/Medium/High/Critical and remap "Critical" to
the category string "Very High Risk". -/
noncomputable def riskAnalysisOf (x : ℝ) : RiskAnalysisResult :=
  let ri := min (max x 0) 1
  let likelihood := ri
  let impact : ℝ := if ri = 0 then 0 else min (ri ^ (1.3 : ℝ) * 1.05) 1
  let environmental_factor := 1 + 0.15 * ri
  let calculated_risk_level := min (likelihood * impact * environmental_factor) 1
  let harm_value := impact
  let risk_score := calculated_risk_level
  let risk_level :=
    if risk_score ≤ 0.25 then "Low"
    else if risk_score ≤ 0.5 then "Medium"
    else if risk_score ≤ 0.75 then "High"
    else "Critical"
  let risk_category := if risk_level = "Critical" then "Very High Risk" else risk_level ++ " Risk"
  { calculated_risk_level := round3r calculated_risk_level
    harm_value := round3r harm_value
    risk_category := risk_category
    probability := round3r likelihood
    impact := round3r impact
    environmental_factor := round3r environmental_factor
    risk_level := risk_level
    risk_score := round3r risk_score
    risk_index := round3r ri }

/-- A Python argument to `calculate_risk_level`: either a value `float()`
can convert, or one it cannot (e.g. the string `"abc"`, or `None`). -/
inductive PyVal where
  | num (x : ℝ)
  | nonNum (s : String)

/-- `float(v)`: identity on numbers, raising on non-convertible values. -/
def pyFloat : PyVal → Except String ℝ
  | .num x => .ok x
  | .nonNum s => .error ("could not convert string to float: " ++ s)

/-- The fixed neutral fallback dictionary built by the `except` handler of
`calculate_risk_level`; its `risk_index` entry is
`float(risk_index) if 'risk_index' in locals() else 0.5`, and the
conversion result is passed through unrounded. -/
noncomputable def neutralFallback (ri2 : ℝ) : RiskAnalysisResult :=
  { calculated_risk_level := 0.5
    harm_value := 0.5
    risk_category := "Medium Risk"
    probability := 0.5
    impact := 0.5
    environmental_factor := 1
    risk_level := "Medium"
    risk_score := 0.5
    risk_index := ri2 }

/-- `calculate_risk_level(risk_index)`: the `try` block converts the
argument with `float`; on success the closed-form analysis runs (and can
raise no further exception).  On conversion failure the `except` handler
builds the neutral fallback dictionary — but its `risk_index` entry
evaluates `float(risk_index)` again (the parameter is always in
`locals()`), so the same conversion error is raised inside the handler and
propagates to the caller. -/
noncomputable def calculate_risk_level (v : PyVal) : Except String RiskAnalysisResult :=
  match pyFloat v with
  | .ok ri => .ok (riskAnalysisOf ri)
  | .error _ =>
    match pyFloat v with
    | .ok ri2 => .ok (neutralFallback ri2)
    | .error e2 => .error e2

/-! ### Helper lemmas -/

theorem clamp01_eq_self {x : ℚ} (h0 : 0 ≤ x) (h1 : x ≤ 1) : clamp01 x = x := by
  unfold clamp01
  rw [max_eq_left h0, min_eq_left h1]

theorem clamp01_mono {x y : ℚ} (h : x ≤ y) : clamp01 x ≤ clamp01 y := by
  unfold clamp01
  exact min_le_min (max_le_max h le_rfl) le_rfl

theorem round_rat_mono {x y : ℚ} (h : x ≤ y) : round x ≤ round y := by
  rw [round_eq, round_eq]
  exact Int.floor_le_floor (by linarith)

theorem round3q_mono {x y : ℚ} (h : x ≤ y) : round3q x ≤ round3q y := by
  unfold round3q
  have h2 : round (x * 1000) ≤ round (y * 1000) := round_rat_mono (by linarith)
  have h3 : ((round (x * 1000) : ℤ) : ℚ) ≤ ((round (y * 1000) : ℤ) : ℚ) := by exact_mod_cast h2
  linarith

theorem round3q_nonneg {x : ℚ} (h : 0 ≤ x) : 0 ≤ round3q x := by
  have h1 := round3q_mono h
  have h0 : round3q 0 = 0 := by decide
  linarith

theorem round3q_le_one {x : ℚ} (h : x ≤ 1) : round3q x ≤ 1 := by
  have h1 := round3q_mono h
  have h0 : round3q 1 = 1 := by decide
  linarith

theorem compute_risk_level_fallback_eq {c i a cv : ℚ}
    (h : riskActs (clamp01 c) (clamp01 i) (clamp01 a) (clamp01 cv) = (0, 0, 0)) :
    compute_risk_level c i a cv = riskFallback c i a cv := by
  unfold compute_risk_level
  rw [if_pos h]

/-! ### Claim C7 -/

/-- C7: whenever the Risk Identifier's internal fuzzy computation raises
(no rule fires, so the crisp output cannot be calculated),
`compute_risk_level` does not propagate the error but returns the
equal-weighted average `0.25*c + 0.25*i + 0.25*a + 0.25*classification`
of its four inputs, each clamped to `[0, 1]` first, rounded to three
decimal places. -/
theorem C7_risk_identifier_fallback (c i a cv : ℚ)
    (h : riskActs (clamp01 c) (clamp01 i) (clamp01 a) (clamp01 cv) = (0, 0, 0)) :
    compute_risk_level c i a cv =
      round3q ((1 / 4) * clamp01 c + (1 / 4) * clamp01 i + (1 / 4) * clamp01 a +
        (1 / 4) * clamp01 cv) := by
  rw [compute_risk_level_fallback_eq h]
  rfl

/-- Witness for C7 at the concrete no-rule-fires input
`(0.5, 0.9, 0.1, 0.5)`, where the fallback value is `0.5`. -/
theorem C7_witness :
    riskActs (clamp01 (1/2)) (clamp01 (9/10)) (clamp01 (1/10)) (clamp01 (1/2)) = (0, 0, 0) ∧
    compute_risk_level (1/2) (9/10) (1/10) (1/2) =
      round3q ((1 / 4) * clamp01 (1/2) + (1 / 4) * clamp01 (9/10) + (1 / 4) * clamp01 (1/10) +
        (1 / 4) * clamp01 (1/2)) :=
  ⟨by decide, C7_risk_identifier_fallback (1/2) (9/10) (1/10) (1/2) (by decide)⟩

/-! ### Claim C4 -/

/-- C4 (amended): the degrade-gracefully contract holds only at the Risk
Identifier's call site: there, a no-rule-fire input yields the
weighted-linear fallback and no exception.  At the Asset Classifier's call
site a valid input on which no rule fires makes `classify_asset_fuzzy`
raise (the scikit-fuzzy error is re-raised at lines 181-183; there is no
fallback). -/
theorem C4_no_rule_fire_behaviour :
    (∀ c i a cv : ℚ,
      riskActs (clamp01 c) (clamp01 i) (clamp01 a) (clamp01 cv) = (0, 0, 0) →
      compute_risk_level c i a cv = riskFallback c i a cv) ∧
    (∀ bc ds od ri c i a : ℚ,
      0 ≤ bc ∧ bc ≤ 1 → 0 ≤ ds ∧ ds ≤ 1 → 0 ≤ od ∧ od ≤ 1 → 0 ≤ ri ∧ ri ≤ 1 →
      0 ≤ c ∧ c ≤ 1 → 0 ≤ i ∧ i ≤ 1 → 0 ≤ a ∧ a ≤ 1 →
      clsActs bc ds od ri c i a = (0, 0, 0) →
      classify_asset_fuzzy bc ds od ri c i a = .error .noRuleFired) := by
  constructor
  · intro c i a cv h
    exact compute_risk_level_fallback_eq h
  · intro bc ds od ri c i a h1 h2 h3 h4 h5 h6 h7 hfire
    unfold classify_asset_fuzzy
    rw [if_neg (not_not_intro h1), if_neg (not_not_intro h2), if_neg (not_not_intro h3),
      if_neg (not_not_intro h4), if_neg (not_not_intro h5), if_neg (not_not_intro h6),
      if_neg (not_not_intro h7), if_pos hfire]

/-- Counterexample to C4 as stated: the input
`(0.5, 0.9, 0.1, 0.5, 0.9, 0.9, 0.9)` is valid (every component is in
`[0, 1]`), no classifier rule fires on it, and `classify_asset_fuzzy`
raises instead of returning a fallback estimate. -/
theorem C4_counterexample :
    ((0:ℚ) ≤ 1/2 ∧ (1/2:ℚ) ≤ 1) ∧ ((0:ℚ) ≤ 9/10 ∧ (9/10:ℚ) ≤ 1) ∧
    ((0:ℚ) ≤ 1/10 ∧ (1/10:ℚ) ≤ 1) ∧
    clsActs (1/2) (9/10) (1/10) (1/2) (9/10) (9/10) (9/10) = (0, 0, 0) ∧
    classify_asset_fuzzy (1/2) (9/10) (1/10) (1/2) (9/10) (9/10) (9/10) =
      .error .noRuleFired := by
  decide

/-- Witness for C4 (amended) at concrete no-rule-fires inputs for both
call sites. -/
theorem C4_witness :
    (riskActs (clamp01 (1/2)) (clamp01 (9/10)) (clamp01 (1/10)) (clamp01 (1/2)) = (0, 0, 0) ∧
      compute_risk_level (1/2) (9/10) (1/10) (1/2) = riskFallback (1/2) (9/10) (1/10) (1/2)) ∧
    (clsActs (1/2) (9/10) (1/10) (1/2) (9/10) (9/10) (9/10) = (0, 0, 0) ∧
      classify_asset_fuzzy (1/2) (9/10) (1/10) (1/2) (9/10) (9/10) (9/10) =
        .error .noRuleFired) :=
  ⟨⟨by decide, C4_no_rule_fire_behaviour.1 (1/2) (9/10) (1/10) (1/2) (by decide)⟩,
   ⟨by decide, C4_no_rule_fire_behaviour.2 (1/2) (9/10) (1/10) (1/2) (9/10) (9/10) (9/10)
      (by decide) (by decide) (by decide) (by decide) (by decide) (by decide) (by decide)
      (by decide)⟩⟩

/-! ### Claim C9 -/

/-- Counterexample to C9: increasing confidentiality from `0.75` to `0.8`
while integrity `0.25`, availability `0.8` and classification `0`
are held fixed makes the risk index drop from `0.388` to `0.138`. -/
theorem C9_counterexample :
    ((3:ℚ)/4 ≤ 4/5) ∧
    compute_risk_level (4/5) (1/4) (4/5) 0 < compute_risk_level (3/4) (1/4) (4/5) 0 := by
  decide

/-- C9 (amended): the Risk Identifier is not monotone in a single CIA
input in general; monotonicity does hold on the fallback path: whenever no
rule fires at either input, increasing any CIA input cannot decrease the
returned weighted-average estimate. -/
theorem C9_fallback_monotone (c1 c2 i1 i2 a1 a2 cv : ℚ)
    (hc : c1 ≤ c2) (hi : i1 ≤ i2) (ha : a1 ≤ a2)
    (h1 : riskActs (clamp01 c1) (clamp01 i1) (clamp01 a1) (clamp01 cv) = (0, 0, 0))
    (h2 : riskActs (clamp01 c2) (clamp01 i2) (clamp01 a2) (clamp01 cv) = (0, 0, 0)) :
    compute_risk_level c1 i1 a1 cv ≤ compute_risk_level c2 i2 a2 cv := by
  rw [compute_risk_level_fallback_eq h1, compute_risk_level_fallback_eq h2]
  unfold riskFallback
  apply round3q_mono
  have hc2 := clamp01_mono hc
  have hi2 := clamp01_mono hi
  have ha2 := clamp01_mono ha
  linarith

/-- Witness for C9 (amended): both `(0.5, 0.9, 0.1, 0.5)` and
`(0.54, 0.9, 0.1, 0.5)` take the fallback path, and the risk index does
not decrease when confidentiality rises from `0.5` to `0.54`. -/
theorem C9_witness :
    ((1:ℚ)/2 ≤ 54/100) ∧
    riskActs (clamp01 (1/2)) (clamp01 (9/10)) (clamp01 (1/10)) (clamp01 (1/2)) = (0, 0, 0) ∧
    riskActs (clamp01 (54/100)) (clamp01 (9/10)) (clamp01 (1/10)) (clamp01 (1/2)) = (0, 0, 0) ∧
    compute_risk_level (1/2) (9/10) (1/10) (1/2) ≤
      compute_risk_level (54/100) (9/10) (1/10) (1/2) :=
  ⟨by decide, by decide, by decide,
    C9_fallback_monotone (1/2) (54/100) (9/10) (9/10) (1/10) (1/10) (1/2)
      (by decide) le_rfl le_rfl (by decide) (by decide)⟩

/-! ### Classifier success shape -/

theorem classify_ok_of_fired (bc ds od ri c i a : ℚ)
    (h1 : 0 ≤ bc ∧ bc ≤ 1) (h2 : 0 ≤ ds ∧ ds ≤ 1) (h3 : 0 ≤ od ∧ od ≤ 1)
    (h4 : 0 ≤ ri ∧ ri ≤ 1) (h5 : 0 ≤ c ∧ c ≤ 1) (h6 : 0 ≤ i ∧ i ≤ 1)
    (h7 : 0 ≤ a ∧ a ≤ 1) (hfire : clsActs bc ds od ri c i a ≠ (0, 0, 0)) :
    classify_asset_fuzzy bc ds od ri c i a = .ok {
      classification_score := round3q (clsScore bc ds od ri c i a)
      classification_category := clsCategory (clsScore bc ds od ri c i a)
      risk_level := clsRiskLevel (clsScore bc ds od ri c i a)
      fuzzy_logic_output := round3q (clsFuzzyScore bc ds od ri c i a)
      business_factors_score := round3q ((bc + od + ri) / 3)
      cia_triad_score := round3q ((c + i + a) / 3)
      data_sensitivity_score := round3q ds } := by
  unfold classify_asset_fuzzy
  rw [if_neg (not_not_intro h1), if_neg (not_not_intro h2), if_neg (not_not_intro h3),
    if_neg (not_not_intro h4), if_neg (not_not_intro h5), if_neg (not_not_intro h6),
    if_neg (not_not_intro h7), if_neg hfire]

/-! ### Claim C1 -/

/-- C1 (amended): for valid inputs on which some rule fires, the returned
classification score is the three-decimal rounding of
`clamp(0.7*fuzzy + 0.6*(0.4*bc + 0.3*od + 0.3*ri)
 + 0.25*(0.33*c + 0.33*i + 0.34*a) + 0.15*ds, 0, 1)`:
the technical component weights the CIA inputs `0.33/0.33/0.34`, not the
equal-weight average. -/
theorem C1_classifier_score_formula (bc ds od ri c i a : ℚ)
    (h1 : 0 ≤ bc ∧ bc ≤ 1) (h2 : 0 ≤ ds ∧ ds ≤ 1) (h3 : 0 ≤ od ∧ od ≤ 1)
    (h4 : 0 ≤ ri ∧ ri ≤ 1) (h5 : 0 ≤ c ∧ c ≤ 1) (h6 : 0 ≤ i ∧ i ≤ 1)
    (h7 : 0 ≤ a ∧ a ≤ 1) (hfire : clsActs bc ds od ri c i a ≠ (0, 0, 0)) :
    (classify_asset_fuzzy bc ds od ri c i a).map (fun r => r.classification_score) =
      .ok (round3q (min (max ((7/10) * clsFuzzyScore bc ds od ri c i a +
        (6/10) * ((4/10) * bc + (3/10) * od + (3/10) * ri) +
        (25/100) * ((33/100) * c + (33/100) * i + (34/100) * a) +
        (15/100) * ds) 0) 1)) := by
  rw [classify_ok_of_fired bc ds od ri c i a h1 h2 h3 h4 h5 h6 h7 hfire]
  simp only [Except.map]
  congr 1
  unfold clsScore clsFinalScore
  ring_nf

/-- Counterexample to C1 as stated: at the valid input
`(0, 0, 0, 0, 0, 0, 1)` the score returned by the code (`0.199`) differs
from the claimed formula with the equal-weight CIA average
(`0.25 * ((c + i + a) / 3)` gives `0.198` after rounding). -/
theorem C1_counterexample :
    (classify_asset_fuzzy 0 0 0 0 0 0 1).map (fun r => r.classification_score) ≠
      .ok (round3q (min (max ((7/10) * clsFuzzyScore 0 0 0 0 0 0 1 +
        (6/10) * ((4/10) * 0 + (3/10) * 0 + (3/10) * 0) +
        (25/100) * ((0 + 0 + 1) / 3) +
        (15/100) * 0) 0) 1)) := by
  decide

/-- Witness for C1 (amended) at the all-`0.5` input, where the returned
score is `0.85`. -/
theorem C1_witness :
    clsActs (1/2) (1/2) (1/2) (1/2) (1/2) (1/2) (1/2) ≠ (0, 0, 0) ∧
    (classify_asset_fuzzy (1/2) (1/2) (1/2) (1/2) (1/2) (1/2) (1/2)).map
        (fun r => r.classification_score) =
      .ok (round3q (min (max
        ((7/10) * clsFuzzyScore (1/2) (1/2) (1/2) (1/2) (1/2) (1/2) (1/2) +
        (6/10) * ((4/10) * (1/2) + (3/10) * (1/2) + (3/10) * (1/2)) +
        (25/100) * ((33/100) * (1/2) + (33/100) * (1/2) + (34/100) * (1/2)) +
        (15/100) * (1/2)) 0) 1)) :=
  ⟨by decide, C1_classifier_score_formula (1/2) (1/2) (1/2) (1/2) (1/2) (1/2) (1/2)
    (by decide) (by decide) (by decide) (by decide) (by decide) (by decide) (by decide)
    (by decide)⟩

/-! ### Claim C3 -/

/-- C3 (amended): the claim holds for the valid inputs on which some rule
fires, which are the inputs on which a result is produced at all: the
returned score is the three-decimal rounding of a final score in `[0, 1]`
and itself lies in `[0, 1]`, and the category is the label that the fixed
thresholds assign to the final score, with each boundary value falling in
the lower category.  (It cannot hold for every valid input in `[0,1]^7`:
on valid inputs where no rule fires, the classifier raises and produces no
score or category.) -/
theorem C3_score_range_and_category (bc ds od ri c i a : ℚ)
    (h1 : 0 ≤ bc ∧ bc ≤ 1) (h2 : 0 ≤ ds ∧ ds ≤ 1) (h3 : 0 ≤ od ∧ od ≤ 1)
    (h4 : 0 ≤ ri ∧ ri ≤ 1) (h5 : 0 ≤ c ∧ c ≤ 1) (h6 : 0 ≤ i ∧ i ≤ 1)
    (h7 : 0 ≤ a ∧ a ≤ 1) (hfire : clsActs bc ds od ri c i a ≠ (0, 0, 0)) :
    (classify_asset_fuzzy bc ds od ri c i a).map
        (fun r => (r.classification_score, r.classification_category)) =
      .ok (round3q (clsScore bc ds od ri c i a), clsCategory (clsScore bc ds od ri c i a)) ∧
    0 ≤ round3q (clsScore bc ds od ri c i a) ∧
    round3q (clsScore bc ds od ri c i a) ≤ 1 ∧
    (∀ s : ℚ,
      (s ≤ 25/100 → clsCategory s = "Public") ∧
      (25/100 < s → s ≤ 50/100 → clsCategory s = "Official") ∧
      (50/100 < s → s ≤ 75/100 → clsCategory s = "Confidential") ∧
      (75/100 < s → clsCategory s = "Restricted")) := by
  refine ⟨?_, ?_, ?_, ?_⟩
  · rw [classify_ok_of_fired bc ds od ri c i a h1 h2 h3 h4 h5 h6 h7 hfire]
    rfl
  · exact round3q_nonneg (le_min (le_max_right _ _) (by norm_num))
  · exact round3q_le_one (min_le_right _ _)
  · intro s
    unfold clsCategory
    refine ⟨fun hs => by rw [if_pos hs], fun hgt hle => ?_, fun hgt hle => ?_, fun hgt => ?_⟩
    · rw [if_neg (not_le.mpr hgt), if_pos hle]
    · rw [if_neg (not_le.mpr (by linarith)), if_neg (not_le.mpr hgt), if_pos hle]
    · rw [if_neg (not_le.mpr (by linarith)), if_neg (not_le.mpr (by linarith)),
        if_neg (not_le.mpr hgt)]

/-- Witness for C3 at the all-`0.5` input (score `0.85`, category
"Restricted"). -/
theorem C3_witness :
    clsActs (1/2) (1/2) (1/2) (1/2) (1/2) (1/2) (1/2) ≠ (0, 0, 0) ∧
    ((classify_asset_fuzzy (1/2) (1/2) (1/2) (1/2) (1/2) (1/2) (1/2)).map
        (fun r => (r.classification_score, r.classification_category)) =
      .ok (round3q (clsScore (1/2) (1/2) (1/2) (1/2) (1/2) (1/2) (1/2)),
        clsCategory (clsScore (1/2) (1/2) (1/2) (1/2) (1/2) (1/2) (1/2))) ∧
    0 ≤ round3q (clsScore (1/2) (1/2) (1/2) (1/2) (1/2) (1/2) (1/2)) ∧
    round3q (clsScore (1/2) (1/2) (1/2) (1/2) (1/2) (1/2) (1/2)) ≤ 1 ∧
    (∀ s : ℚ,
      (s ≤ 25/100 → clsCategory s = "Public") ∧
      (25/100 < s → s ≤ 50/100 → clsCategory s = "Official") ∧
      (50/100 < s → s ≤ 75/100 → clsCategory s = "Confidential") ∧
      (75/100 < s → clsCategory s = "Restricted"))) :=
  ⟨by decide, C3_score_range_and_category (1/2) (1/2) (1/2) (1/2) (1/2) (1/2) (1/2)
    (by decide) (by decide) (by decide) (by decide) (by decide) (by decide) (by decide)
    (by decide)⟩

/-- Counterexample to C3 as stated: the claim quantifies over every valid
input in `[0,1]^7`, but at the valid input
`(0.5, 0.9, 0.1, 0.5, 0.9, 0.9, 0.9)` no rule fires, `classify_asset_fuzzy`
raises, and no score or category is produced at all. -/
theorem C3_counterexample :
    ((0:ℚ) ≤ 1/2 ∧ (1/2:ℚ) ≤ 1) ∧ ((0:ℚ) ≤ 9/10 ∧ (9/10:ℚ) ≤ 1) ∧
    ((0:ℚ) ≤ 1/10 ∧ (1/10:ℚ) ≤ 1) ∧
    (classify_asset_fuzzy (1/2) (9/10) (1/10) (1/2) (9/10) (9/10) (9/10)).isOk = false := by
  decide

/-! ### Claim C6 -/

/-- C6: when any of the 7 inputs lies outside `[0, 1]`,
`classify_asset_fuzzy` raises a validation error carrying the name and the
unmodified value of an offending input, and no classification result is
produced. -/
theorem C6_validation_rejects (bc ds od ri c i a : ℚ)
    (h : ¬(0 ≤ bc ∧ bc ≤ 1) ∨ ¬(0 ≤ ds ∧ ds ≤ 1) ∨ ¬(0 ≤ od ∧ od ≤ 1) ∨
      ¬(0 ≤ ri ∧ ri ≤ 1) ∨ ¬(0 ≤ c ∧ c ≤ 1) ∨ ¬(0 ≤ i ∧ i ≤ 1) ∨ ¬(0 ≤ a ∧ a ≤ 1)) :
    ∃ name v, classify_asset_fuzzy bc ds od ri c i a = .error (.invalidInput name v) ∧
      (name, v) ∈ [("business_criticality", bc), ("data_sensitivity", ds),
        ("operational_dependency", od), ("regulatory_impact", ri),
        ("confidentiality", c), ("integrity", i), ("availability", a)] ∧
      ¬(0 ≤ v ∧ v ≤ 1) := by
  unfold classify_asset_fuzzy
  by_cases hbc : 0 ≤ bc ∧ bc ≤ 1
  case neg => exact ⟨"business_criticality", bc, by rw [if_pos hbc], by simp, hbc⟩
  rw [if_neg (not_not_intro hbc)]
  by_cases hds : 0 ≤ ds ∧ ds ≤ 1
  case neg => exact ⟨"data_sensitivity", ds, by rw [if_pos hds], by simp, hds⟩
  rw [if_neg (not_not_intro hds)]
  by_cases hod : 0 ≤ od ∧ od ≤ 1
  case neg => exact ⟨"operational_dependency", od, by rw [if_pos hod], by simp, hod⟩
  rw [if_neg (not_not_intro hod)]
  by_cases hri : 0 ≤ ri ∧ ri ≤ 1
  case neg => exact ⟨"regulatory_impact", ri, by rw [if_pos hri], by simp, hri⟩
  rw [if_neg (not_not_intro hri)]
  by_cases hc : 0 ≤ c ∧ c ≤ 1
  case neg => exact ⟨"confidentiality", c, by rw [if_pos hc], by simp, hc⟩
  rw [if_neg (not_not_intro hc)]
  by_cases hi : 0 ≤ i ∧ i ≤ 1
  case neg => exact ⟨"integrity", i, by rw [if_pos hi], by simp, hi⟩
  rw [if_neg (not_not_intro hi)]
  by_cases ha : 0 ≤ a ∧ a ≤ 1
  case neg => exact ⟨"availability", a, by rw [if_pos ha], by simp, ha⟩
  rcases h with h1 | h1 | h1 | h1 | h1 | h1 | h1
  · exact absurd hbc h1
  · exact absurd hds h1
  · exact absurd hod h1
  · exact absurd hri h1
  · exact absurd hc h1
  · exact absurd hi h1
  · exact absurd ha h1

/-- Witness for C6 at the out-of-range input
`business_criticality = 2`. -/
theorem C6_witness :
    ¬((0:ℚ) ≤ 2 ∧ (2:ℚ) ≤ 1) ∧
    ∃ name v, classify_asset_fuzzy 2 0 0 0 0 0 0 = .error (.invalidInput name v) ∧
      (name, v) ∈ [("business_criticality", (2:ℚ)), ("data_sensitivity", 0),
        ("operational_dependency", 0), ("regulatory_impact", 0),
        ("confidentiality", 0), ("integrity", 0), ("availability", 0)] ∧
      ¬(0 ≤ v ∧ v ≤ 1) :=
  ⟨by decide, C6_validation_rejects 2 0 0 0 0 0 0 (Or.inl (by decide))⟩

/-! ### Real-number rounding helpers -/

theorem round3r_one : round3r 1 = 1 := by
  unfold round3r
  rw [one_mul, show ((1000:ℝ)) = ((1000:ℕ):ℝ) by norm_num, round_natCast]
  norm_num

theorem round3r_eq_zero {x : ℝ} (h0 : 0 ≤ x) (h1 : x < 1/2000) : round3r x = 0 := by
  unfold round3r
  have h : round (x * 1000) = 0 := by
    rw [round_eq]
    refine Int.floor_eq_zero_iff.mpr ⟨by linarith, by linarith⟩
  rw [h]
  norm_num

theorem rpow_thirteen_tenths_1024 : ((1:ℝ)/1024) ^ (1.3:ℝ) = 1/8192 := by
  have h2 : ((1:ℝ)/1024) = ((1:ℝ)/2) ^ (10:ℕ) := by norm_num
  rw [h2, ← Real.rpow_natCast ((1:ℝ)/2) 10, ← Real.rpow_mul (by norm_num : (0:ℝ) ≤ 1/2)]
  rw [show ((10:ℕ):ℝ) * (1.3:ℝ) = ((13:ℕ):ℝ) by norm_num, Real.rpow_natCast]
  norm_num

/-! ### Claim C2 -/

/-- C2 (amended): for `risk_index` in `[0, 1]` the Mathematical Risk
Analyzer returns the three-decimal rounding of
`min(risk_index * impact * (1 + 0.15 * risk_index), 1)` with
`impact = 0` at zero and `min(risk_index^1.3 * 1.05, 1)` otherwise; at
`risk_index = 1` the returned level is exactly `1.0` and the category is
"Very High Risk" (the internal "Critical" level remapped). -/
theorem C2_mathematical_analyzer_formula (x : ℝ) (h0 : 0 ≤ x) (h1 : x ≤ 1) :
    (calculate_risk_level (.num x)).map (fun r => r.calculated_risk_level) =
      .ok (round3r (min (x * (if x = 0 then 0 else min (x ^ (1.3:ℝ) * 1.05) 1) *
        (1 + 0.15 * x)) 1)) ∧
    (calculate_risk_level (.num 1)).map (fun r => (r.calculated_risk_level, r.risk_category)) =
      .ok (1, "Very High Risk") := by
  constructor
  · have hc : min (max x 0) 1 = x := by rw [max_eq_left h0, min_eq_left h1]
    simp only [calculate_risk_level, pyFloat, Except.map, riskAnalysisOf, hc]
  · have hc : min (max (1:ℝ) 0) 1 = 1 := by rw [max_eq_left zero_le_one, min_self]
    simp only [calculate_risk_level, pyFloat, Except.map, riskAnalysisOf, hc]
    rw [if_neg (one_ne_zero), Real.one_rpow]
    rw [show min ((1:ℝ) * 1.05) 1 = 1 by rw [one_mul]; exact min_eq_right (by norm_num)]
    rw [show min ((1:ℝ) * 1 * (1 + 0.15 * 1)) 1 = 1 by norm_num]
    rw [if_neg (by norm_num : ¬(1:ℝ) ≤ 0.25), if_neg (by norm_num : ¬(1:ℝ) ≤ 0.5),
      if_neg (by norm_num : ¬(1:ℝ) ≤ 0.75)]
    rw [round3r_one]
    simp

/-- Counterexample to C2 as stated: at `risk_index = 1/1024` (a tenth
power, so `risk_index^1.3` is rational) the code returns the rounded value
`0.0`, while the claimed unrounded formula value is positive
(about `1.25e-7`). -/
theorem C2_counterexample :
    (calculate_risk_level (.num (1/1024))).map (fun r => r.calculated_risk_level) = .ok 0 ∧
    min ((1/1024 : ℝ) * (if (1/1024 : ℝ) = 0 then 0
        else min ((1/1024 : ℝ) ^ (1.3:ℝ) * 1.05) 1) * (1 + 0.15 * (1/1024))) 1 ≠ 0 := by
  have hne : ((1:ℝ)/1024) ≠ 0 := by norm_num
  have himp : min ((1/1024 : ℝ) ^ (1.3:ℝ) * 1.05) 1 = 21/163840 := by
    rw [rpow_thirteen_tenths_1024]
    rw [show ((1:ℝ)/8192 * 1.05) = 21/163840 by norm_num]
    exact min_eq_left (by norm_num)
  constructor
  · have hc : min (max ((1:ℝ)/1024) 0) 1 = 1/1024 := by
      rw [max_eq_left (by norm_num), min_eq_left (by norm_num)]
    simp only [calculate_risk_level, pyFloat, Except.map, riskAnalysisOf, hc]
    rw [if_neg hne, himp]
    rw [show min ((1/1024 : ℝ) * (21/163840) * (1 + 0.15 * (1/1024))) 1 =
      (1/1024 : ℝ) * (21/163840) * (1 + 0.15 * (1/1024)) from min_eq_left (by norm_num)]
    rw [round3r_eq_zero (by norm_num) (by norm_num)]
  · rw [if_neg hne, himp]
    rw [show min ((1/1024 : ℝ) * (21/163840) * (1 + 0.15 * (1/1024))) 1 =
      (1/1024 : ℝ) * (21/163840) * (1 + 0.15 * (1/1024)) from min_eq_left (by norm_num)]
    norm_num

/-- Witness for C2 (amended) at `risk_index = 1`. -/
theorem C2_witness :
    (0:ℝ) ≤ 1 ∧ (1:ℝ) ≤ 1 ∧
    ((calculate_risk_level (.num 1)).map (fun r => r.calculated_risk_level) =
      .ok (round3r (min ((1:ℝ) * (if (1:ℝ) = 0 then 0 else min ((1:ℝ) ^ (1.3:ℝ) * 1.05) 1) *
        (1 + 0.15 * 1)) 1)) ∧
    (calculate_risk_level (.num 1)).map (fun r => (r.calculated_risk_level, r.risk_category)) =
      .ok (1, "Very High Risk")) :=
  ⟨zero_le_one, le_refl 1, C2_mathematical_analyzer_formula 1 zero_le_one (le_refl 1)⟩

/-! ### Claim C8 -/

/-- C8: `calculate_risk_level` cannot return its neutral fallback for a
conversion failure.  On numeric input the `try` block always succeeds, so
the handler is unreachable; on a non-convertible input (the only way an
exception occurs) the handler itself re-evaluates `float(risk_index)` for
the fallback dictionary's `risk_index` entry and the same error is raised
again, so the function propagates the exception instead of returning the
documented `calculated_risk_level = 0.5, risk_category = "Medium Risk"`
fallback. -/
theorem C8_exception_propagates :
    calculate_risk_level (PyVal.nonNum "abc") =
      .error ("could not convert string to float: " ++ "abc") ∧
    (∀ x : ℝ, calculate_risk_level (.num x) = .ok (riskAnalysisOf x)) :=
  ⟨rfl, fun _ => rfl⟩

/-! ### Claim C5 -/

/-- C5: one failing asset aborts the whole batch.  If the first tuple's
comparison succeeds and the second raises, `batch_comparison` returns the
error record: the successful asset's individual result is discarded
(`individual_results = []`) and the performance metrics are empty rather
than reporting a reduced success rate. -/
theorem C5_batch_failure_aborts_all {R : Type} (compare : List ℚ → Except String R)
    (t1 t2 : List ℚ) (e : String)
    (h1 : (compare (t1.take 7)).isOk = true)
    (h2 : compare (t2.take 7) = .error e)
    (hl1 : 7 ≤ t1.length) (hl2 : 7 ≤ t2.length) :
    (batch_comparison compare [t1, t2]).individual_results = [] ∧
    (batch_comparison compare [t1, t2]).error = some ("Batch comparison failed: " ++ e) ∧
    (batch_comparison compare [t1, t2]).performance_metrics = none := by
  obtain ⟨r1, hr1⟩ : ∃ r, compare (t1.take 7) = .ok r := by
    cases hc : compare (t1.take 7) with
    | ok r => exact ⟨r, rfl⟩
    | error e1 => rw [hc] at h1; simp [Except.isOk, Except.toBool] at h1
  simp [batch_comparison, runComparisons, hr1, h2, hl1, hl2]

/-- Witness for C5: a batch of one valid asset (all `0.5`, whose fuzzy
comparison succeeds) followed by one invalid asset
(`business_criticality = 2`, whose fuzzy sub-classifier raises): the whole
batch degenerates to the error record with no individual results. -/
theorem C5_witness :
    (fuzzySubCompare ([1/2, 1/2, 1/2, 1/2, 1/2, 1/2, 1/2].take 7)).isOk = true ∧
    fuzzySubCompare ([2, 0, 0, 0, 0, 0, 0].take 7) =
      .error "Enhanced fuzzy logic classification failed" ∧
    ((batch_comparison fuzzySubCompare
        [[1/2, 1/2, 1/2, 1/2, 1/2, 1/2, 1/2], [2, 0, 0, 0, 0, 0, 0]]).individual_results = [] ∧
      (batch_comparison fuzzySubCompare
        [[1/2, 1/2, 1/2, 1/2, 1/2, 1/2, 1/2], [2, 0, 0, 0, 0, 0, 0]]).error =
        some ("Batch comparison failed: " ++ "Enhanced fuzzy logic classification failed") ∧
      (batch_comparison fuzzySubCompare
        [[1/2, 1/2, 1/2, 1/2, 1/2, 1/2, 1/2], [2, 0, 0, 0, 0, 0, 0]]).performance_metrics =
        none) :=
  ⟨by decide, by decide,
    C5_batch_failure_aborts_all fuzzySubCompare _ _ _ (by decide) (by decide) (by decide)
      (by decide)⟩

/-! ### Claim C10 -/

/-- C10: the consensus prediction is always one of the three individual
predictions, and whenever at least two of the three predictions carry the
same label, the consensus is that majority label no matter which of the
three positions hold it. -/
theorem C10_consensus_majority (p1 p2 p3 : String) :
    (consensusPrediction p1 p2 p3 = p1 ∨ consensusPrediction p1 p2 p3 = p2 ∨
      consensusPrediction p1 p2 p3 = p3) ∧
    (∀ m : String, (p1 = m ∧ p2 = m) ∨ (p1 = m ∧ p3 = m) ∨ (p2 = m ∧ p3 = m) →
      consensusPrediction p1 p2 p3 = m) := by
  by_cases h21 : p2 = p1
  · by_cases h31 : p3 = p1
    · have hval : consensusPrediction p1 p2 p3 = p1 := by
        rw [h21, h31]
        simp [consensusPrediction, pickMostCommon, firstOccurrenceKeys]
      exact ⟨Or.inl hval, fun m hm => by
        rw [hval]; rcases hm with ⟨ha, hb⟩ | ⟨ha, hb⟩ | ⟨ha, hb⟩ <;> cc⟩
    · have h31x : ¬(p1 = p3) := fun h => h31 h.symm
      have hval : consensusPrediction p1 p2 p3 = p1 := by
        rw [h21]
        simp [consensusPrediction, pickMostCommon, firstOccurrenceKeys, h31, h31x,
          List.count_cons]
      exact ⟨Or.inl hval, fun m hm => by
        rw [hval]; rcases hm with ⟨ha, hb⟩ | ⟨ha, hb⟩ | ⟨ha, hb⟩ <;> cc⟩
  · have h21x : ¬(p1 = p2) := fun h => h21 h.symm
    by_cases h31 : p3 = p1
    · have hval : consensusPrediction p1 p2 p3 = p1 := by
        rw [h31]
        simp [consensusPrediction, pickMostCommon, firstOccurrenceKeys, h21, h21x,
          List.count_cons]
      exact ⟨Or.inl hval, fun m hm => by
        rw [hval]; rcases hm with ⟨ha, hb⟩ | ⟨ha, hb⟩ | ⟨ha, hb⟩ <;> cc⟩
    · have h31x : ¬(p1 = p3) := fun h => h31 h.symm
      by_cases h32 : p3 = p2
      · have hval : consensusPrediction p1 p2 p3 = p2 := by
          rw [h32]
          simp [consensusPrediction, pickMostCommon, firstOccurrenceKeys, h21, h21x,
            List.count_cons]
        exact ⟨Or.inr (Or.inl hval), fun m hm => by
          rw [hval]; rcases hm with ⟨ha, hb⟩ | ⟨ha, hb⟩ | ⟨ha, hb⟩ <;> cc⟩
      · have h32x : ¬(p2 = p3) := fun h => h32 h.symm
        have hval : consensusPrediction p1 p2 p3 = p1 := by
          simp [consensusPrediction, pickMostCommon, firstOccurrenceKeys, h21, h21x,
            h31, h31x, h32, h32x, List.count_cons]
        exact ⟨Or.inl hval, fun m hm => by
          rw [hval]; rcases hm with ⟨ha, hb⟩ | ⟨ha, hb⟩ | ⟨ha, hb⟩ <;> cc⟩

/-- Witness for C10: with predictions
`("Confidential", "Restricted", "Restricted")` the majority label
"Restricted" wins. -/
theorem C10_witness :
    consensusPrediction "Confidential" "Restricted" "Restricted" = "Restricted" :=
  (C10_consensus_majority "Confidential" "Restricted" "Restricted").2 "Restricted"
    (Or.inr (Or.inr ⟨rfl, rfl⟩))
